import Mathlib

/-!
Verification development for the VU_July2025 canary pipeline.

The repository has three relevant Python sources:
  * `lambda/crawler.py` — the Prober: fetches each URL of `sites.json`,
    publishes an Availability and a Latency metric sample per URL.
  * `lambda/alarm_logger.py` — the Alarm Logger: consumes SNS alarm
    notifications and writes one DynamoDB record per SNS record.
  * `devops_canary/devops_canary_stack.py` — CDK stack declaring, per URL,
    an Availability alarm and a Latency alarm (thresholds, comparison
    operators, missing-data policies).

This file shallowly embeds those pieces: Python dict/list/JSON values become
the inductive `JVal`, Python exceptions become `Except PyErr`, the external
HTTP fetch and the external JSON parser become function parameters, and the
sequential handler loops become structural recursion that stops at the first
uncaught exception (modelling exception propagation out of the loop).
-/

/-- Python exception classes that the embedded code can raise. -/
inductive PyErr where
  | attributeError
  | typeError
  | keyError
  | clientError
deriving DecidableEq, Repr

/-- JSON-like Python values (dicts modelled as association lists). -/
inductive JVal where
  | null
  | bool (b : Bool)
  | num (q : Rat)
  | str (s : String)
  | arr (elems : List JVal)
  | obj (fields : List (String × JVal))
deriving Repr

/-- Python truthiness of a value (`bool(v)`). -/
def pyTruthy : JVal → Bool
  | .null => false
  | .bool b => b
  | .num q => q != 0
  | .str s => s != ""
  | .arr xs => !xs.isEmpty
  | .obj fs => !fs.isEmpty

/-- Python `d.get(key, default)`: raises AttributeError on a non-dict. -/
def JVal.getD (v : JVal) (key : String) (default : JVal) : Except PyErr JVal :=
  match v with
  | .obj fields =>
    match fields.lookup key with
    | some x => .ok x
    | none => .ok default
  | _ => .error .attributeError

/-- Python `d.get(key)` (default `None` kept as `Option.none`). -/
def JVal.getOpt (v : JVal) (key : String) : Except PyErr (Option JVal) :=
  match v with
  | .obj fields => .ok (fields.lookup key)
  | _ => .error .attributeError

/-- Python subscript `d[key]`: KeyError when absent, TypeError on a non-dict. -/
def JVal.getItem (v : JVal) (key : String) : Except PyErr JVal :=
  match v with
  | .obj fields =>
    match fields.lookup key with
    | some x => .ok x
    | none => .error .keyError
  | _ => .error .typeError

/-- Python slice `s[:n]` on a string (by code point). -/
def pyTake (s : String) (n : Nat) : String :=
  ⟨s.data.take n⟩

/-- Rendering of a JSON number, used by the serializers below. -/
def ratStr (q : Rat) : String :=
  if q.den = 1 then toString q.num
  else toString q.num ++ "/" ++ toString q.den

mutual

/-- Model of Python `json.dumps` (string escaping elided). -/
def dumps : JVal → String
  | .null => "null"
  | .bool true => "true"
  | .bool false => "false"
  | .num q => ratStr q
  | .str s => "\"" ++ s ++ "\""
  | .arr xs => "[" ++ dumpsList xs ++ "]"
  | .obj fs => "\x7b" ++ dumpsFields fs ++ "\x7d"

/-- Comma-separated serialization of a JSON array body. -/
def dumpsList : List JVal → String
  | [] => ""
  | [x] => dumps x
  | x :: xs => dumps x ++ ", " ++ dumpsList xs

/-- Comma-separated serialization of a JSON object body. -/
def dumpsFields : List (String × JVal) → String
  | [] => ""
  | [(k, v)] => "\"" ++ k ++ "\": " ++ dumps v
  | (k, v) :: fs => "\"" ++ k ++ "\": " ++ dumps v ++ ", " ++ dumpsFields fs

end

mutual

/-- Model of Python `str(v)` for parsed-JSON values. -/
def pyStr : JVal → String
  | .null => "None"
  | .bool true => "True"
  | .bool false => "False"
  | .num q => ratStr q
  | .str s => s
  | .arr xs => "[" ++ pyReprList xs ++ "]"
  | .obj fs => "\x7b" ++ pyReprFields fs ++ "\x7d"

/-- Model of Python `repr(v)` for parsed-JSON values. -/
def pyRepr : JVal → String
  | .null => "None"
  | .bool true => "True"
  | .bool false => "False"
  | .num q => ratStr q
  | .str s => "\x27" ++ s ++ "\x27"
  | .arr xs => "[" ++ pyReprList xs ++ "]"
  | .obj fs => "\x7b" ++ pyReprFields fs ++ "\x7d"

/-- Comma-separated repr of a Python list body. -/
def pyReprList : List JVal → String
  | [] => ""
  | [x] => pyRepr x
  | x :: xs => pyRepr x ++ ", " ++ pyReprList xs

/-- Comma-separated repr of a Python dict body. -/
def pyReprFields : List (String × JVal) → String
  | [] => ""
  | [(k, v)] => "\x27" ++ k ++ "\x27: " ++ pyRepr v
  | (k, v) :: fs => "\x27" ++ k ++ "\x27: " ++ pyRepr v ++ ", " ++ pyReprFields fs

end

/-!
Prober (`lambda/crawler.py`).

`_http_get` performs the external HTTP GET; we model its outcome per URL as
`Option (Nat × Rat)`: `some (code, latencyMs)` when `urlopen` returns, `none`
when it raises (timeout, DNS failure, connection refused, TLS failure, HTTP
error status raised by urllib).
-/

/-- One element of the `MetricData` list passed to `put_metric_data`
(crawler.py lines 39-52). -/
structure MetricDatum where
  metricName : String
  dimensions : List (String × String)
  value : Rat
  unit : String
deriving Repr, DecidableEq

/-- Per-target body of the crawler loop before publishing (crawler.py lines
27-36): default `status_val = 0`, `latency_ms = 0.0`; on a successful GET the
measured latency is kept and availability is 1 exactly when the code is 200;
on any exception both defaults survive. -/
def probeResult (outcome : Option (Nat × Rat)) : Rat × Rat :=
  match outcome with
  | some (code, latency) => (if code = 200 then 1 else 0, latency)
  | none => (0, 0)

/-- The two-element `metric_data` batch built for one URL
(crawler.py lines 39-52). -/
def crawlerMetricData (url : String) (statusVal latencyMs : Rat) : List MetricDatum :=
  [ { metricName := "Availability"
      dimensions := [("URL", url)]
      value := statusVal
      unit := "Count" },
    { metricName := "Latency"
      dimensions := [("URL", url)]
      value := latencyMs
      unit := "Milliseconds" } ]

/-- Observable outcome of one crawler invocation: the successful
`put_metric_data` calls in order, the summary records appended, and whether
the handler aborted with an uncaught exception. -/
structure CrawlerRun where
  published : List (String × List MetricDatum)
  results : List (String × Rat × Rat)
  aborted : Bool
deriving Repr, DecidableEq

/-- The crawler handler loop (crawler.py lines 26-57). `probe url` is the
outcome of `_http_get(url)`; `pubOk url` tells whether the
`cloudwatch.put_metric_data` call for that URL succeeds. The `try/except`
covers only the probe; a publish failure raises out of the loop, so the
remaining URLs are neither probed nor published. -/
def runCrawler (probe : String → Option (Nat × Rat)) (pubOk : String → Bool) :
    List String → CrawlerRun
  | [] => { published := [], results := [], aborted := false }
  | url :: rest =>
    let sv := (probeResult (probe url)).1
    let lm := (probeResult (probe url)).2
    let md := crawlerMetricData url sv lm
    if pubOk url then
      let r := runCrawler probe pubOk rest
      { published := (url, md) :: r.published
        results := (url, sv, lm) :: r.results
        aborted := r.aborted }
    else
      { published := [], results := [], aborted := true }

/-!
Alarm configuration (`devops_canary_stack.py` lines 153-197) and the
evaluator semantics those declarations configure.
-/

/-- Alarm state set (spec section 4.3). -/
inductive AlarmState where
  | ok
  | alarm
  | insufficientData
deriving DecidableEq, Repr

/-- The comparison operators used by the stack. -/
inductive ComparisonOperator where
  | lessThanThreshold
  | greaterThanThreshold
deriving DecidableEq, Repr

/-- The missing-data policies used by the stack. -/
inductive TreatMissingData where
  | breaching
  | notBreaching
deriving DecidableEq, Repr

/-- The alarm properties the stack passes to `cloudwatch.Alarm`. -/
structure AlarmConfig where
  threshold : Rat
  evaluationPeriods : Nat
  datapointsToAlarm : Nat
  comparisonOperator : ComparisonOperator
  treatMissingData : TreatMissingData
deriving Repr

/-- Latency threshold constant (devops_canary_stack.py line 23). -/
def LATENCY_THRESHOLD_MS : Rat := 1500

/-- Availability alarm configuration (devops_canary_stack.py lines 164-173). -/
def avAlarmConfig : AlarmConfig :=
  { threshold := 0.99
    evaluationPeriods := 1
    datapointsToAlarm := 1
    comparisonOperator := .lessThanThreshold
    treatMissingData := .breaching }

/-- Latency alarm configuration (devops_canary_stack.py lines 186-195). -/
def ltAlarmConfig : AlarmConfig :=
  { threshold := LATENCY_THRESHOLD_MS
    evaluationPeriods := 1
    datapointsToAlarm := 1
    comparisonOperator := .greaterThanThreshold
    treatMissingData := .notBreaching }

/-- Whether a datapoint breaches the threshold under the configured operator. -/
def breaches (op : ComparisonOperator) (v threshold : Rat) : Bool :=
  match op with
  | .lessThanThreshold => v < threshold
  | .greaterThanThreshold => v > threshold

/-- Modelled from the spec: the Alarm Evaluator tick of section 4.3. The
evaluation engine itself (CloudWatch) is not part of src/; the repository only
declares each alarm's configuration. With `evaluation_periods = 1` and
`datapoints_to_alarm = 1` a tick looks at the single latest aggregated
datapoint: a missing datapoint is resolved by the missing-data policy, a
present one by the threshold comparison. -/
def evalTick (cfg : AlarmConfig) (datapoint : Option Rat) : AlarmState :=
  match datapoint with
  | none =>
    match cfg.treatMissingData with
    | .breaching => .alarm
    | .notBreaching => .ok
  | some v => if breaches cfg.comparisonOperator v cfg.threshold then .alarm else .ok

/-!
Alarm Logger (`lambda/alarm_logger.py`).

The external JSON parser (`json.loads`) is a function parameter
`jsonLoads : String → Option JVal` (`none` = the parse raised); the DynamoDB
`put_item` call is a parameter `writeOk : Item → Bool`.
-/

/-- The DynamoDB item shape built by the handler (alarm_logger.py lines
23-32). `URL` is `none` when Python stores `None`. -/
structure Item where
  AlarmName : String
  Timestamp : String
  NewStateValue : String
  NewStateReason : String
  MetricName : String
  Namespace : String
  URL : Option JVal
  Raw : String
deriving Repr

/-- Python `d.get("name") == "URL"` (comparison against the string). -/
def isStrURL : Option JVal → Bool
  | some (.str s) => s == "URL"
  | _ => false

/-- Python `x or y` on two optional values, with `None` as `none`. -/
def pyOrOpt (a b : Option JVal) : Option JVal :=
  match a with
  | some v => if pyTruthy v then some v else b
  | none => b

/-- Body of the `for d in ...` loop of `_extract_url_from_dimensions`
(alarm_logger.py lines 39-42): the first entry whose `name` or `Name` equals
"URL" returns `d.get("value") or d.get("Value")`. -/
def extractLoop : List JVal → Except PyErr (Option JVal)
  | [] => .ok none
  | d :: rest => do
    let nLower ← d.getOpt "name"
    let nUpper ← d.getOpt "Name"
    if isStrURL nLower || isStrURL nUpper then do
      let vLower ← d.getOpt "value"
      let vUpper ← d.getOpt "Value"
      .ok (pyOrOpt vLower vUpper)
    else
      extractLoop rest

/-- `_extract_url_from_dimensions(dims)` (alarm_logger.py lines 38-42):
`dims or []` iterates nothing when `dims` is falsy; a truthy non-sequence
raises TypeError at the `for`. -/
def extractUrlFromDimensions (dims : JVal) : Except PyErr (Option JVal) :=
  if pyTruthy dims then
    match dims with
    | .arr ds => extractLoop ds
    | _ => .error .typeError
  else
    .ok none

/-- Construction of the `item` dict (alarm_logger.py lines 21-32), evaluated
field by field in source order; `alarm.get` raises AttributeError when the
parsed message is not a JSON object. -/
def buildItem (nowIso : String) (alarm : JVal) : Except PyErr Item := do
  let an ← alarm.getD "AlarmName" (.str "UnknownAlarm")
  let nsv ← alarm.getD "NewStateValue" (.str "UNKNOWN")
  let nsr ← alarm.getD "NewStateReason" (.str "")
  let trig ← alarm.getD "Trigger" (.obj [])
  let mn ← trig.getD "MetricName" (.str "Unknown")
  let ns ← trig.getD "Namespace" (.str "")
  let dims ← trig.getD "Dimensions" (.arr [])
  let url ← extractUrlFromDimensions dims
  .ok
    { AlarmName := pyStr an
      Timestamp := nowIso
      NewStateValue := pyStr nsv
      NewStateReason := pyTake (pyStr nsr) 1000
      MetricName := pyStr mn
      Namespace := pyStr ns
      URL := url
      Raw := pyTake (dumps alarm) 3500 }

/-- The guarded lookup `record["Sns"]["Message"]` of alarm_logger.py line 15. -/
def tryMessage (record : JVal) : Except PyErr JVal := do
  let sns ← record.getItem "Sns"
  sns.getItem "Message"

/-- The except branch of alarm_logger.py lines 17-19:
`{"RawMessage": record.get("Sns", {}).get("Message", "")}`; these `.get`
calls run inside the except handler, so their own failures are uncaught. -/
def fallbackAlarm (record : JVal) : Except PyErr JVal := do
  let sns ← record.getD "Sns" (.obj [])
  let msg ← sns.getD "Message" (.str "")
  .ok (.obj [("RawMessage", msg)])

/-- The try/except of alarm_logger.py lines 14-19: extract
`record["Sns"]["Message"]` and `json.loads` it; on any exception — a failed
lookup, a non-string message (TypeError inside `json.loads`), or a parse
failure — fall back to the RawMessage dict. -/
def parseRecord (jsonLoads : String → Option JVal) (record : JVal) :
    Except PyErr JVal :=
  match tryMessage record with
  | .ok (.str m) =>
    match jsonLoads m with
    | some alarm => .ok alarm
    | none => fallbackAlarm record
  | _ => fallbackAlarm record

/-- The handler's return value `{"statusCode": 200}` (alarm_logger.py line 36). -/
def loggerOk : JVal := .obj [("statusCode", .num 200)]

/-- Observable outcome of one logger invocation: the items written by
successful `put_item` calls, in order, and either the returned value or the
uncaught exception. -/
structure LoggerRun where
  written : List Item
  outcome : Except PyErr JVal
deriving Repr

/-- The logger record loop (alarm_logger.py lines 13-36). `put_item` is not
inside the try block, so a failed write — and any exception escaping the
item construction — propagates and aborts the remaining records. -/
def runLogger (jsonLoads : String → Option JVal) (writeOk : Item → Bool)
    (nowIso : String) : List JVal → LoggerRun
  | [] => { written := [], outcome := .ok loggerOk }
  | r :: rest =>
    match parseRecord jsonLoads r with
    | .error e => { written := [], outcome := .error e }
    | .ok alarm =>
      match buildItem nowIso alarm with
      | .error e => { written := [], outcome := .error e }
      | .ok item =>
        if writeOk item then
          let k := runLogger jsonLoads writeOk nowIso rest
          { written := item :: k.written, outcome := k.outcome }
        else
          { written := [], outcome := .error .clientError }

/-- The full logger handler (alarm_logger.py lines 9-36):
`event.get("Records", [])`, then the record loop. A truthy non-sequence
`Records` value raises at the `for`. -/
def loggerHandler (jsonLoads : String → Option JVal) (writeOk : Item → Bool)
    (nowIso : String) (event : JVal) : LoggerRun :=
  match event.getD "Records" (.arr []) with
  | .error e => { written := [], outcome := .error e }
  | .ok (.arr rs) => runLogger jsonLoads writeOk nowIso rs
  | .ok v =>
    if pyTruthy v then { written := [], outcome := .error .typeError }
    else runLogger jsonLoads writeOk nowIso []

/-- Concrete test alarm payload: a JSON object with only a NewStateReason. -/
def loggerSampleAlarm : JVal := .obj [("NewStateReason", JVal.str "r")]

/-- The item the Logger builds from `loggerSampleAlarm` at time "T". -/
def loggerSampleItem : Item :=
  { AlarmName := "UnknownAlarm"
    Timestamp := "T"
    NewStateValue := "UNKNOWN"
    NewStateReason := pyTake "r" 1000
    MetricName := "Unknown"
    Namespace := ""
    URL := none
    Raw := pyTake (dumps loggerSampleAlarm) 3500 }

/-!
Crawler theorems.
-/

/-- Complete characterization of a crawler run: the handler processes targets
in order until the first failed publish; the successful publishes are exactly
the longest prefix of targets whose publish succeeds, and the run aborts with
an uncaught exception exactly when some target's publish fails. -/
theorem runCrawler_char (probe : String → Option (Nat × Rat))
    (pubOk : String → Bool) :
    ∀ sites : List String,
      (runCrawler probe pubOk sites).aborted = !sites.all pubOk ∧
      (runCrawler probe pubOk sites).published =
        (sites.takeWhile pubOk).map (fun url =>
          (url, crawlerMetricData url (probeResult (probe url)).1
            (probeResult (probe url)).2)) ∧
      (runCrawler probe pubOk sites).results =
        (sites.takeWhile pubOk).map (fun url => (url, probeResult (probe url)))
  | [] => by simp [runCrawler]
  | url :: rest => by
    have ih := runCrawler_char probe pubOk rest
    by_cases h : pubOk url = true
    · simp [runCrawler, h, List.takeWhile_cons, ih.1, ih.2.1, ih.2.2]
    · simp at h
      simp [runCrawler, h, List.takeWhile_cons]

/-- Taking while a constantly-true predicate keeps the whole list. -/
theorem takeWhile_const_true {α : Type} : ∀ l : List α,
    l.takeWhile (fun _ => true) = l
  | [] => rfl
  | a :: l => by simp [List.takeWhile_cons, takeWhile_const_true l]

/-- C1 counterexample: with two targets and the publish call failing for the
first, the crawler aborts with an uncaught exception and the second target is
never published — refuting "a publish failure for one target never aborts the
remaining targets of the batch". -/
theorem publish_failure_aborts_batch_cex :
    (runCrawler (fun _ => some (200, 100))
        (fun u => u != "https://site-a.example")
        ["https://site-a.example", "https://site-b.example"]).aborted = true ∧
    (runCrawler (fun _ => some (200, 100))
        (fun u => u != "https://site-a.example")
        ["https://site-a.example", "https://site-b.example"]).published = [] := by
  constructor <;> rfl

/-- C1 (amended): a failure of the metric publish call is NOT recovered
locally: `put_metric_data` sits outside the crawler's try/except, so the
exception propagates, probing and publishing stop at the first target whose
publish fails (the successful publishes are exactly the longest prefix of
targets with succeeding publishes), and the run aborts whenever any target's
publish fails. No publish is retried. -/
theorem publish_failure_aborts_batch (probe : String → Option (Nat × Rat))
    (pubOk : String → Bool) (sites : List String) :
    (runCrawler probe pubOk sites).aborted = !sites.all pubOk ∧
    (runCrawler probe pubOk sites).published =
      (sites.takeWhile pubOk).map (fun url =>
        (url, crawlerMetricData url (probeResult (probe url)).1
          (probeResult (probe url)).2)) :=
  ⟨(runCrawler_char probe pubOk sites).1, (runCrawler_char probe pubOk sites).2.1⟩

/-- C5: with every publish call succeeding, the crawler never aborts and, for
every target in order — whatever its probe outcome, success, non-200 or
raised transport error — performs exactly one publish call carrying exactly
the two samples Availability and Latency; in particular a failing target
never prevents publishing for the others. -/
theorem two_samples_per_target (probe : String → Option (Nat × Rat))
    (sites : List String) :
    (runCrawler probe (fun _ => true) sites).aborted = false ∧
    (runCrawler probe (fun _ => true) sites).published =
      sites.map (fun url =>
        (url, crawlerMetricData url (probeResult (probe url)).1
          (probeResult (probe url)).2)) ∧
    (runCrawler probe (fun _ => true) sites).published.length = sites.length ∧
    ∀ url s l, (crawlerMetricData url s l).map MetricDatum.metricName =
      ["Availability", "Latency"] := by
  have h := runCrawler_char probe (fun _ => true) sites
  rw [takeWhile_const_true] at h
  refine ⟨?_, h.2.1, ?_, ?_⟩
  · rw [h.1]; simp
  · rw [h.2.1]; simp
  · intro url s l; rfl

/-- C2: the missing-data policy is asymmetric per alarm-kind: an evaluation
period with no aggregated datapoint drives the Availability alarm to ALARM
(treat_missing_data = BREACHING) and the Latency alarm to OK
(treat_missing_data = NOT_BREACHING), so the Latency alarm never enters ALARM
from missing data alone. -/
theorem missing_data_policy_asymmetric :
    evalTick avAlarmConfig none = AlarmState.alarm ∧
    evalTick ltAlarmConfig none = AlarmState.ok :=
  ⟨rfl, rfl⟩

/-- Evaluation of the Availability alarm on a present datapoint. -/
theorem evalTick_av (v : Rat) :
    evalTick avAlarmConfig (some v) =
      if v < 0.99 then AlarmState.alarm else AlarmState.ok := by
  by_cases h : v < (0.99 : Rat) <;>
    simp [evalTick, breaches, avAlarmConfig, h]

/-- Evaluation of the Latency alarm on a present datapoint. -/
theorem evalTick_lt (v : Rat) :
    evalTick ltAlarmConfig (some v) =
      if v > 1500 then AlarmState.alarm else AlarmState.ok := by
  by_cases h : v > (1500 : Rat) <;>
    simp [evalTick, breaches, ltAlarmConfig, LATENCY_THRESHOLD_MS, h]

/-- C3: both alarms use exactly 1 evaluation period and 1 datapoint to alarm,
and both comparators are strict: an Availability datapoint alarms iff it is
strictly below 0.99 (0.99 gives OK, 0.989999 gives ALARM) and a Latency
datapoint alarms iff it is strictly above the configured 1500 ms threshold
(1500 gives OK, 1501 gives ALARM). -/
theorem alarm_comparators_strict :
    avAlarmConfig.evaluationPeriods = 1 ∧ avAlarmConfig.datapointsToAlarm = 1 ∧
    ltAlarmConfig.evaluationPeriods = 1 ∧ ltAlarmConfig.datapointsToAlarm = 1 ∧
    ltAlarmConfig.threshold = 1500 ∧
    (∀ v : Rat, evalTick avAlarmConfig (some v) = AlarmState.alarm ↔ v < 0.99) ∧
    (∀ v : Rat, evalTick ltAlarmConfig (some v) = AlarmState.alarm ↔ v > 1500) ∧
    evalTick avAlarmConfig (some 0.99) = AlarmState.ok ∧
    evalTick avAlarmConfig (some 0.989999) = AlarmState.alarm ∧
    evalTick ltAlarmConfig (some 1500) = AlarmState.ok ∧
    evalTick ltAlarmConfig (some 1501) = AlarmState.alarm := by
  refine ⟨rfl, rfl, rfl, rfl, by norm_num [ltAlarmConfig, LATENCY_THRESHOLD_MS],
    ?_, ?_, ?_, ?_, ?_, ?_⟩
  · intro v
    rw [evalTick_av]
    by_cases h : v < (0.99 : Rat) <;> simp [h]
  · intro v
    rw [evalTick_lt]
    by_cases h : v > (1500 : Rat) <;> simp [h]
  · rw [evalTick_av]; norm_num
  · rw [evalTick_av]; norm_num
  · rw [evalTick_lt]; norm_num
  · rw [evalTick_lt]; norm_num

/-- C4: the availability sample is 1 exactly when the HTTP status code is 200;
on a successful response the measured latency is kept, the sample is always
0 or 1, and a raised transport failure yields availability 0 with the latency
sample reported as 0 rather than omitted. -/
theorem availability_one_iff_200 :
    (∀ (code : Nat) (lat : Rat),
      ((probeResult (some (code, lat))).1 = 1 ↔ code = 200) ∧
      (probeResult (some (code, lat))).2 = lat) ∧
    probeResult none = (0, 0) ∧
    (∀ o, (probeResult o).1 = 0 ∨ (probeResult o).1 = 1) := by
  refine ⟨?_, rfl, ?_⟩
  · intro code lat
    by_cases h : code = 200 <;> simp [probeResult, h]
  · intro o
    match o with
    | none => simp [probeResult]
    | some (c, l) => by_cases h : c = 200 <;> simp [probeResult, h]

/-!
Logger theorems.
-/

/-- Inversion of a successful Except bind. -/
theorem Except_bind_ok {α β : Type} {e : Except PyErr α}
    {k : α → Except PyErr β} {b : β} (h : (e >>= k) = .ok b) :
    ∃ a, e = .ok a ∧ k a = .ok b := by
  cases e with
  | ok a => exact ⟨a, rfl, h⟩
  | error err =>
    have hred : (Except.error err : Except PyErr α) >>= k = Except.error err := rfl
    rw [hred] at h
    cases h

/-- Length of a Python string slice. -/
theorem pyTake_length (s : String) (n : Nat) :
    (pyTake s n).length = min n s.length := by
  show (s.data.take n).length = min n s.data.length
  simp [List.length_take]

/-- C7: every item the Logger builds has `NewStateReason` truncated to the
first 1000 characters of the stringified reason and `Raw` truncated to the
first 3500 characters of the serialized payload; both stored fields are
within their bounds, and a longer source string is cut to exactly the bound. -/
theorem logger_truncates_reason_and_raw (now : String) (alarm : JVal)
    (item : Item) (h : buildItem now alarm = Except.ok item) :
    item.NewStateReason.length ≤ 1000 ∧
    item.Raw.length ≤ 3500 ∧
    item.Raw = pyTake (dumps alarm) 3500 ∧
    (∀ reason, alarm.getD "NewStateReason" (.str "") = .ok reason →
      item.NewStateReason = pyTake (pyStr reason) 1000) ∧
    (∀ s : String, 1000 ≤ s.length → (pyTake s 1000).length = 1000) ∧
    (∀ s : String, 3500 ≤ s.length → (pyTake s 3500).length = 3500) := by
  unfold buildItem at h
  obtain ⟨an, han, h⟩ := Except_bind_ok h
  obtain ⟨nsv, hnsv, h⟩ := Except_bind_ok h
  obtain ⟨nsr, hnsr, h⟩ := Except_bind_ok h
  obtain ⟨trig, htrig, h⟩ := Except_bind_ok h
  obtain ⟨mn, hmn, h⟩ := Except_bind_ok h
  obtain ⟨ns, hns, h⟩ := Except_bind_ok h
  obtain ⟨dims, hdims, h⟩ := Except_bind_ok h
  obtain ⟨u, hu, h⟩ := Except_bind_ok h
  injection h with h
  subst h
  refine ⟨?_, ?_, rfl, ?_, ?_, ?_⟩
  · simp [pyTake_length]
  · simp [pyTake_length]
  · intro reason hr
    rw [hnsr] at hr
    cases hr
    rfl
  · intro s hs
    rw [pyTake_length]
    omega
  · intro s hs
    rw [pyTake_length]
    omega

/-- A successful Except value feeds its continuation. -/
theorem Except_ok_bind {α β : Type} (a : α) (k : α → Except PyErr β) :
    (Except.ok a >>= k) = k a := rfl

/-- A nonempty Python list is truthy. -/
theorem pyTruthy_arr_cons (x : JVal) (xs : List JVal) :
    pyTruthy (JVal.arr (x :: xs)) = true := rfl

/-- Witness for the truncation theorem at a concrete alarm payload. -/
theorem logger_truncates_reason_and_raw_witness :
    buildItem "T" loggerSampleAlarm = Except.ok loggerSampleItem ∧
    (loggerSampleItem.NewStateReason.length ≤ 1000 ∧
     loggerSampleItem.Raw.length ≤ 3500 ∧
     loggerSampleItem.Raw = pyTake (dumps loggerSampleAlarm) 3500 ∧
     (∀ reason, loggerSampleAlarm.getD "NewStateReason" (.str "") = .ok reason →
       loggerSampleItem.NewStateReason = pyTake (pyStr reason) 1000) ∧
     (∀ s : String, 1000 ≤ s.length → (pyTake s 1000).length = 1000) ∧
     (∀ s : String, 3500 ≤ s.length → (pyTake s 3500).length = 3500)) :=
  ⟨rfl, logger_truncates_reason_and_raw "T" loggerSampleAlarm loggerSampleItem rfl⟩

/-- C6: a record whose Sns message is not parseable JSON still yields exactly
one stored record — the RawMessage fallback dict, carrying the raw payload in
its serialized Raw copy — and the handler neither drops the record nor
raises: it returns statusCode 200. -/
theorem unparseable_message_still_logged
    (jsonLoads : String → Option JVal) (writeOk : Item → Bool)
    (now raw : String) (hparse : jsonLoads raw = none)
    (hwrite : writeOk = fun _ => true) :
    runLogger jsonLoads writeOk now
        [JVal.obj [("Sns", JVal.obj [("Message", JVal.str raw)])]] =
      { written :=
          [{ AlarmName := "UnknownAlarm"
             Timestamp := now
             NewStateValue := "UNKNOWN"
             NewStateReason := ""
             MetricName := "Unknown"
             Namespace := ""
             URL := none
             Raw := pyTake (dumps (JVal.obj [("RawMessage", JVal.str raw)])) 3500 }],
        outcome := Except.ok loggerOk } := by
  have e1 : parseRecord jsonLoads
      (JVal.obj [("Sns", JVal.obj [("Message", JVal.str raw)])]) =
      (match jsonLoads raw with
        | some alarm => Except.ok alarm
        | none => fallbackAlarm
            (JVal.obj [("Sns", JVal.obj [("Message", JVal.str raw)])])) := rfl
  have h1 : parseRecord jsonLoads
      (JVal.obj [("Sns", JVal.obj [("Message", JVal.str raw)])]) =
      Except.ok (JVal.obj [("RawMessage", JVal.str raw)]) := by
    rw [e1, hparse]
    rfl
  have h2 : buildItem now (JVal.obj [("RawMessage", JVal.str raw)]) =
      Except.ok
        { AlarmName := "UnknownAlarm"
          Timestamp := now
          NewStateValue := "UNKNOWN"
          NewStateReason := ""
          MetricName := "Unknown"
          Namespace := ""
          URL := none
          Raw := pyTake (dumps (JVal.obj [("RawMessage", JVal.str raw)])) 3500 } := rfl
  simp [runLogger, h1, h2, hwrite]

/-- Witness for the unparseable-message theorem at a concrete payload. -/
theorem unparseable_message_still_logged_witness :
    ((fun _ : String => (none : Option JVal)) "oops" = none) ∧
    ((fun _ : Item => true) = fun _ : Item => true) ∧
    runLogger (fun _ => none) (fun _ => true) "T"
        [JVal.obj [("Sns", JVal.obj [("Message", JVal.str "oops")])]] =
      { written :=
          [{ AlarmName := "UnknownAlarm"
             Timestamp := "T"
             NewStateValue := "UNKNOWN"
             NewStateReason := ""
             MetricName := "Unknown"
             Namespace := ""
             URL := none
             Raw := pyTake (dumps (JVal.obj [("RawMessage", JVal.str "oops")])) 3500 }],
        outcome := Except.ok loggerOk } :=
  ⟨rfl, rfl,
    unparseable_message_still_logged (fun _ => none) (fun _ => true)
      "T" "oops" rfl rfl⟩

/-- C8: for a well-formed alarm whose Trigger.Dimensions holds a URL entry
with a nonempty value, the Logger populates the item's URL field with that
value identically for every casing combination of the pair keys —
"Name"/"name" crossed with "Value"/"value" — and when no URL dimension is
present the URL field is None. -/
theorem url_dimension_case_tolerant (url : String) (h : url ≠ "") :
    (∀ nk vk : String, (nk = "Name" ∨ nk = "name") →
      (vk = "Value" ∨ vk = "value") →
      extractUrlFromDimensions
          (JVal.arr [JVal.obj [(nk, JVal.str "URL"), (vk, JVal.str url)]]) =
        Except.ok (some (JVal.str url)) ∧
      (∀ now : String, ∃ item : Item,
        buildItem now
            (JVal.obj [("AlarmName", JVal.str "A"),
              ("Trigger", JVal.obj [("Dimensions",
                JVal.arr [JVal.obj [(nk, JVal.str "URL"),
                  (vk, JVal.str url)]])])]) =
          Except.ok item ∧ item.URL = some (JVal.str url))) ∧
    extractUrlFromDimensions (JVal.arr []) = Except.ok none ∧
    extractUrlFromDimensions
        (JVal.arr [JVal.obj [("Name", JVal.str "Other"),
          ("Value", JVal.str url)]]) =
      Except.ok none ∧
    (∀ now : String, ∃ item : Item,
      buildItem now
          (JVal.obj [("AlarmName", JVal.str "A"),
            ("Trigger", JVal.obj [("Dimensions", JVal.arr [])])]) =
        Except.ok item ∧ item.URL = none) := by
  have ht : pyTruthy (JVal.str url) = true := by simp [pyTruthy, h]
  refine ⟨?_, rfl, rfl, fun now => ⟨_, rfl, rfl⟩⟩
  intro nk vk hnk hvk
  rcases hnk with rfl | rfl <;> rcases hvk with rfl | rfl <;>
    refine ⟨by simp [extractUrlFromDimensions, extractLoop, JVal.getOpt,
        isStrURL, pyOrOpt, Except_ok_bind, List.lookup, pyTruthy_arr_cons, ht],
      fun now => ⟨_, rfl, by simp [pyOrOpt, List.lookup, ht]⟩⟩

/-- Witness for the URL-dimension theorem at a concrete URL. -/
theorem url_dimension_case_tolerant_witness :
    ("https://example.com" ≠ "") ∧
    ((∀ nk vk : String, (nk = "Name" ∨ nk = "name") →
      (vk = "Value" ∨ vk = "value") →
      extractUrlFromDimensions
          (JVal.arr [JVal.obj [(nk, JVal.str "URL"),
            (vk, JVal.str "https://example.com")]]) =
        Except.ok (some (JVal.str "https://example.com")) ∧
      (∀ now : String, ∃ item : Item,
        buildItem now
            (JVal.obj [("AlarmName", JVal.str "A"),
              ("Trigger", JVal.obj [("Dimensions",
                JVal.arr [JVal.obj [(nk, JVal.str "URL"),
                  (vk, JVal.str "https://example.com")]])])]) =
          Except.ok item ∧
        item.URL = some (JVal.str "https://example.com"))) ∧
    extractUrlFromDimensions (JVal.arr []) = Except.ok none ∧
    extractUrlFromDimensions
        (JVal.arr [JVal.obj [("Name", JVal.str "Other"),
          ("Value", JVal.str "https://example.com")]]) =
      Except.ok none ∧
    (∀ now : String, ∃ item : Item,
      buildItem now
          (JVal.obj [("AlarmName", JVal.str "A"),
            ("Trigger", JVal.obj [("Dimensions", JVal.arr [])])]) =
        Except.ok item ∧ item.URL = none)) :=
  ⟨by decide, url_dimension_case_tolerant "https://example.com" (by decide)⟩

/-- C9 counterexample: a record whose message is the valid JSON text "5"
parses to a non-object; `alarm.get` then raises AttributeError outside the
try block, so the Logger raises even though every store write succeeds —
refuting "the Logger raises if and only if a store write fails". -/
theorem logger_raises_without_write_failure_cex :
    (runLogger (fun s => if s = "5" then some (JVal.num 5) else none)
        (fun _ => true) "T"
        [JVal.obj [("Sns", JVal.obj [("Message", JVal.str "5")])]]).outcome =
      Except.error PyErr.attributeError ∧
    (runLogger (fun s => if s = "5" then some (JVal.num 5) else none)
        (fun _ => true) "T"
        [JVal.obj [("Sns", JVal.obj [("Message", JVal.str "5")])]]).written
      = [] := by
  constructor <;> rfl

/-- C9 (amended): for a record whose item construction succeeds — its message
parses to a JSON object, or parsing fails and the RawMessage fallback is used
— the Logger raises exactly when the store write fails: a failed `put_item`
surfaces as an uncaught error with nothing written, a successful one yields
the stored item and statusCode 200. (The unrestricted "iff" is refuted by
`logger_raises_without_write_failure_cex`: a message parsing to a non-object
JSON value also raises.) -/
theorem store_write_failure_surfaced
    (jsonLoads : String → Option JVal) (writeOk : Item → Bool)
    (now : String) (r alarm : JVal) (item : Item)
    (hp : parseRecord jsonLoads r = Except.ok alarm)
    (hb : buildItem now alarm = Except.ok item) :
    (writeOk item = false →
      runLogger jsonLoads writeOk now [r] =
        { written := [], outcome := Except.error PyErr.clientError }) ∧
    (writeOk item = true →
      runLogger jsonLoads writeOk now [r] =
        { written := [item], outcome := Except.ok loggerOk }) := by
  constructor <;> intro hw <;> simp [runLogger, hp, hb, hw]

/-- Witness for the write-failure theorem at a concrete record. -/
theorem store_write_failure_surfaced_witness :
    parseRecord (fun _ => none)
        (JVal.obj [("Sns", JVal.obj [("Message", JVal.str "x")])]) =
      Except.ok (JVal.obj [("RawMessage", JVal.str "x")]) ∧
    buildItem "T" (JVal.obj [("RawMessage", JVal.str "x")]) =
      Except.ok
        { AlarmName := "UnknownAlarm"
          Timestamp := "T"
          NewStateValue := "UNKNOWN"
          NewStateReason := ""
          MetricName := "Unknown"
          Namespace := ""
          URL := none
          Raw := pyTake (dumps (JVal.obj [("RawMessage", JVal.str "x")])) 3500 } ∧
    runLogger (fun _ => none) (fun _ => false) "T"
        [JVal.obj [("Sns", JVal.obj [("Message", JVal.str "x")])]] =
      { written := [], outcome := Except.error PyErr.clientError } :=
  ⟨rfl, rfl,
    (store_write_failure_surfaced (fun _ => none) (fun _ => false) "T"
      (JVal.obj [("Sns", JVal.obj [("Message", JVal.str "x")])])
      (JVal.obj [("RawMessage", JVal.str "x")])
      { AlarmName := "UnknownAlarm"
        Timestamp := "T"
        NewStateValue := "UNKNOWN"
        NewStateReason := ""
        MetricName := "Unknown"
        Namespace := ""
        URL := none
        Raw := pyTake (dumps (JVal.obj [("RawMessage", JVal.str "x")])) 3500 }
      rfl rfl).1 rfl⟩

/-- C10: an event without a Records key, or with an empty Records list, makes
the Logger write nothing and return statusCode 200. -/
theorem no_records_returns_200
    (jsonLoads : String → Option JVal) (writeOk : Item → Bool) (now : String) :
    (∀ fields : List (String × JVal), fields.lookup "Records" = none →
      loggerHandler jsonLoads writeOk now (JVal.obj fields) =
        { written := [], outcome := Except.ok loggerOk }) ∧
    (∀ fields : List (String × JVal),
      fields.lookup "Records" = some (JVal.arr []) →
      loggerHandler jsonLoads writeOk now (JVal.obj fields) =
        { written := [], outcome := Except.ok loggerOk }) := by
  constructor <;> intro fields hf <;>
    simp [loggerHandler, JVal.getD, hf, runLogger]

/-- Witness for the empty-event theorem at concrete events. -/
theorem no_records_returns_200_witness :
    ([] : List (String × JVal)).lookup "Records" = none ∧
    loggerHandler (fun _ => none) (fun _ => true) "T" (JVal.obj []) =
      { written := [], outcome := Except.ok loggerOk } ∧
    ([("Records", JVal.arr [])]).lookup "Records" = some (JVal.arr []) ∧
    loggerHandler (fun _ => none) (fun _ => true) "T"
        (JVal.obj [("Records", JVal.arr [])]) =
      { written := [], outcome := Except.ok loggerOk } :=
  ⟨rfl,
    (no_records_returns_200 (fun _ => none) (fun _ => true) "T").1 [] rfl,
    rfl,
    (no_records_returns_200 (fun _ => none) (fun _ => true) "T").2
      [("Records", JVal.arr [])] rfl⟩
